import Mathlib

/-!
Shallow embedding of the OpenChat V2 message lifecycle subsystem.

Server side (database_schema_v2_messages.sql): the `messages_v2`, `app_settings`,
`groups` and `users_v2` tables are embedded as lists of rows inside a `DB` record;
the plpgsql functions `calculate_message_ttl`, `send_message_v2_guest`,
`toggle_message_pin` and `cleanup_expired_messages` are embedded as pure functions
on `DB`.  Timestamps are modelled as `Int` epoch seconds; one SQL `hour` interval
is 3600 seconds.  Postgres `NOW()` is transaction-stable, so a single `now`
argument stands for every `NOW()` occurring inside one function call.
plpgsql three-valued comparisons against a possibly-NULL variable are modelled
with `Option Bool`: an `IF` branch fires only when its condition is `some true`.

Client side: `handleNewMessage` (GroupChat component), `addMessage`
(RealtimeMessagingService), the DirectChat send-failure handler and the
DirectChat periodic sync step are embedded as pure functions on lists of
client messages; `updateMessageRetentionHours` (HybridMessagingService) is
embedded as a function on `DB`.
-/

/-- User roles, from the `user_role` enum of the V2 schema. -/
inductive Role where
  | guest
  | normal
  | admin
  | operator
deriving DecidableEq, Repr

/-- Row of `users_v2` (the columns the embedded functions read or write). -/
structure UserRow where
  id : Nat
  username : String
  display_name : Option String
  role : Role
  last_active : Int
  is_online : Bool
deriving DecidableEq, Repr

/-- Row of `groups` (the columns `calculate_message_ttl` reads). -/
structure GroupRow where
  id : Nat
  message_deletion_timer : Int
  is_active : Bool
deriving DecidableEq, Repr

/-- Row of `messages_v2`. -/
structure MessageRow where
  id : Nat
  user_id : Nat
  username : String
  display_name : Option String
  content : String
  message_type : String
  group_id : Option Nat
  user_role : Role
  created_at : Int
  expires_at : Int
  is_pinned : Bool
deriving DecidableEq, Repr

/-- Row of `app_settings` (the columns read or written by the embedded code). -/
structure SettingRow where
  setting_key : String
  setting_value : String
  updated_by : Option Nat
  updated_at : Int
deriving DecidableEq, Repr

/-- The database state: the four tables plus a fresh-id source standing for
`uuid_generate_v4()`. -/
structure DB where
  users_v2 : List UserRow
  groups : List GroupRow
  messages_v2 : List MessageRow
  app_settings : List SettingRow
  next_id : Nat
deriving DecidableEq, Repr

/-- Lookup of an `app_settings` row by key (`SELECT ... WHERE setting_key = key`). -/
def findSetting (db : DB) (key : String) : Option SettingRow :=
  db.app_settings.find? (fun r => r.setting_key == key)

/-- Lookup of an active group (`SELECT ... FROM groups WHERE id = g AND is_active = true`). -/
def findActiveGroup (db : DB) (g : Nat) : Option GroupRow :=
  db.groups.find? (fun gr => gr.id == g && gr.is_active)

/-- Decimal digit value of a character, `none` for a non-digit. -/
def pgDigitVal (c : Char) : Option Nat :=
  if 48 ≤ c.toNat ∧ c.toNat ≤ 57 then some (c.toNat - 48) else none

/-- Decimal reading of a digit string, `none` when empty or non-numeric. -/
def pgDigitsToNat (cs : List Char) : Option Nat :=
  match cs with
  | [] => none
  | _ =>
    cs.foldl (fun acc c =>
      match acc, pgDigitVal c with
      | some a, some d => some (a * 10 + d)
      | _, _ => none) (some 0)

/-- The SQL `text::INTEGER` cast: an optional sign followed by decimal digits
(`none` models the cast raising on non-numeric text). -/
def pgTextToInt (s : String) : Option Int :=
  match s.data with
  | '-' :: cs => (pgDigitsToNat cs).map (fun n => -(n : Int))
  | cs => (pgDigitsToNat cs).map (fun n => (n : Int))

/-- The ELSE branch of `calculate_message_ttl`: `SELECT setting_value::INTEGER ...
WHERE setting_key = 'default_message_retention_hours'`, falling back to 24 when the
row is missing.  The `::INTEGER` cast raises when the stored text does not parse. -/
def defaultSettingHours (db : DB) : Except String Int :=
  match findSetting db "default_message_retention_hours" with
  | none => Except.ok 24
  | some r =>
    match pgTextToInt r.setting_value with
    | some v => Except.ok v
    | none => Except.error "invalid input syntax for type integer"

/-- Retention resolution of `calculate_message_ttl` (sql lines 119-143): the value
held by `retention_hours` when control reaches line 146.  A custom override wins;
else a group-typed call with a non-NULL group id reads the active group's
`message_deletion_timer / 3600` (SQL integer division truncates toward zero,
`Int.tdiv`), falling back to a literal 24 when no active row exists; else the
global default setting is read.  -/
def resolve_retention_hours (db : DB) (p_message_type : String) (p_group_id : Option Nat)
    (p_custom_retention_hours : Option Int) : Except String Int :=
  match p_custom_retention_hours with
  | some c => Except.ok c
  | none =>
    match p_group_id with
    | some g =>
      if p_message_type == "group" then
        match findActiveGroup db g with
        | some gr => Except.ok (gr.message_deletion_timer.tdiv 3600)
        | none => Except.ok 24
      else defaultSettingHours db
    | none => defaultSettingHours db

/-- The plpgsql function `calculate_message_ttl`: resolves the retention hours and
returns `NOW() + (retention_hours || ' hours')::INTERVAL`. -/
def calculate_message_ttl (db : DB) (now : Int) (p_message_type : String)
    (p_group_id : Option Nat) (p_custom_retention_hours : Option Int) :
    Except String Int :=
  Except.map (fun retention_hours => now + retention_hours * 3600)
    (resolve_retention_hours db p_message_type p_group_id p_custom_retention_hours)

/-- The CHECK constraints of `messages_v2` (`valid_message_type`,
`valid_group_message`, `valid_pinned_message`), evaluated on a row. -/
def messageRowCheck (m : MessageRow) : Bool :=
  (m.message_type == "direct" || m.message_type == "group") &&
  ((m.message_type == "direct" && m.group_id == none) ||
   (m.message_type == "group" && m.group_id != none)) &&
  (m.is_pinned == false || (m.is_pinned == true && m.user_role == Role.operator))

/-- The `group_id REFERENCES groups(id)` foreign key, checked at insert. -/
def groupFkOk (db : DB) (gid : Option Nat) : Bool :=
  match gid with
  | none => true
  | some g => db.groups.any (fun gr => gr.id == g)

/-- The plpgsql function `send_message_v2_guest`: looks up the user (raising
`User not found` otherwise), computes the TTL via `calculate_message_ttl`,
inserts the row (with `created_at` defaulting to `NOW()` and `is_pinned`
defaulting to FALSE; the table's constraints reject an invalid row), updates
the sender's `last_active`/`is_online`, and returns the new id. -/
def send_message_v2_guest (db : DB) (now : Int) (p_user_id : Nat) (p_content : String)
    (p_message_type : String) (p_group_id : Option Nat)
    (p_custom_retention_hours : Option Int) : Except String (DB × Nat) :=
  match db.users_v2.find? (fun u => u.id == p_user_id) with
  | none => Except.error "User not found"
  | some user_data =>
    match calculate_message_ttl db now p_message_type p_group_id p_custom_retention_hours with
    | Except.error e => Except.error e
    | Except.ok ttl_timestamp =>
      let m : MessageRow :=
        { id := db.next_id, user_id := p_user_id, username := user_data.username,
          display_name := user_data.display_name, content := p_content,
          message_type := p_message_type, group_id := p_group_id,
          user_role := user_data.role, created_at := now,
          expires_at := ttl_timestamp, is_pinned := false }
      if messageRowCheck m && groupFkOk db p_group_id then
        Except.ok
          ({ db with
              messages_v2 := db.messages_v2 ++ [m],
              next_id := db.next_id + 1,
              users_v2 := db.users_v2.map (fun u =>
                if u.id == p_user_id then { u with last_active := now, is_online := true }
                else u) },
            m.id)
      else Except.error "constraint violation"

/-- Projection: the row inserted by a successful `send_message_v2_guest` call
(appended at the end of `messages_v2`); `none` when the call failed. -/
def sentMessage (r : Except String (DB × Nat)) : Option MessageRow :=
  match r with
  | Except.error _ => none
  | Except.ok p => p.1.messages_v2.getLast?

/-- Role lookup used by `toggle_message_pin`: `SELECT role INTO operator_role
FROM users_v2 WHERE id = p_operator_id` leaves the variable NULL when no row matches. -/
def lookupUserRole (db : DB) (uid : Nat) : Option Role :=
  (db.users_v2.find? (fun u => u.id == uid)).map (fun u => u.role)

/-- SQL three-valued `<>` against a possibly-NULL enum variable: NULL compared with
anything is NULL (`none`), never TRUE. -/
def sqlNeqRole : Option Role → Role → Option Bool
  | none, _ => none
  | some a, b => some (a != b)

/-- The plpgsql function `toggle_message_pin`: the permission `IF` fires only when
`operator_role != 'operator'` evaluates to TRUE (a NULL result - caller id not in
`users_v2` - does not fire it); then the message is looked up (raising `Message not
found`), its pin flag is flipped by an UPDATE (subject to the table's CHECK
constraints), and the new flag is returned. -/
def toggle_message_pin (db : DB) (p_message_id : Nat) (p_operator_id : Nat) :
    Except String (DB × Bool) :=
  let operator_role := lookupUserRole db p_operator_id
  if sqlNeqRole operator_role Role.operator == some true then
    Except.error "Only operators can pin/unpin messages"
  else
    match db.messages_v2.find? (fun x => x.id == p_message_id) with
    | none => Except.error "Message not found"
    | some m =>
      let current_pin_status := m.is_pinned
      if messageRowCheck { m with is_pinned := !current_pin_status } then
        Except.ok
          ({ db with
              messages_v2 := db.messages_v2.map (fun x =>
                if x.id == p_message_id then { x with is_pinned := !current_pin_status }
                else x) },
            !current_pin_status)
      else Except.error "constraint violation"

/-- The DELETE predicate of `cleanup_expired_messages`:
`expires_at < NOW() AND is_pinned = FALSE`. -/
def expiredUnpinned (now : Int) (m : MessageRow) : Bool :=
  decide (m.expires_at < now) && m.is_pinned == false

/-- The plpgsql function `cleanup_expired_messages`: deletes every row matching
`expires_at < NOW() AND is_pinned = FALSE` and returns the deleted row count. -/
def cleanup_expired_messages (db : DB) (now : Int) : DB × Nat :=
  ({ db with messages_v2 := db.messages_v2.filter (fun m => !expiredUnpinned now m) },
   (db.messages_v2.filter (expiredUnpinned now)).length)

/-- `HybridMessagingService.updateMessageRetentionHours`: an UPDATE of
`app_settings` rows whose `setting_key` is `default_message_retention_hours`,
setting `setting_value`, `updated_by` and `updated_at`. -/
def updateMessageRetentionHours (db : DB) (hours : Int) (operatorUserId : Nat)
    (now : Int) : DB :=
  { db with
      app_settings := db.app_settings.map (fun r =>
        if r.setting_key == "default_message_retention_hours" then
          { r with setting_value := toString hours, updated_by := some operatorUserId,
                   updated_at := now }
        else r) }

/-- Client-side message record (the fields the reconciliation handlers read);
`created_at`/`expires_at` are epoch instants (ISO timestamp strings in the source
order exactly as their instants do). -/
structure RMsg where
  id : String
  user_id : String
  content : String
  created_at : Int
  expires_at : Int
deriving DecidableEq, Repr

/-- Comparator used by the client sorts: ascending `created_at`. -/
def createdLe (a b : RMsg) : Prop := a.created_at ≤ b.created_at

instance : DecidableRel createdLe :=
  fun a b => inferInstanceAs (Decidable (a.created_at ≤ b.created_at))

instance : IsTotal RMsg createdLe :=
  ⟨fun a b => Int.le_total a.created_at b.created_at⟩

instance : IsTrans RMsg createdLe :=
  ⟨fun _ _ _ h1 h2 => le_trans h1 h2⟩

/-- `handleNewMessage` of the GroupChat component: if a message with the same id
already exists the previous view is returned unchanged, else the message is
appended and the view re-sorted ascending by `created_at` (JavaScript
`Array.prototype.sort` is stable; modelled by stable insertion sort). -/
def handleNewMessage (message : RMsg) (prev : List RMsg) : List RMsg :=
  if prev.any (fun m => m.id == message.id) then prev
  else List.insertionSort createdLe (prev ++ [message])

/-- `RealtimeMessagingService.addMessage`: `findIndex` by id; when no entry matches
(`-1`, here `none`) the message is pushed and the list sorted by creation time;
otherwise nothing happens. -/
def addMessage (messages : List RMsg) (message : RMsg) : List RMsg :=
  match messages.findIdx? (fun m => m.id == message.id) with
  | none => List.insertionSort createdLe (messages ++ [message])
  | some _ => messages

/-- DirectChat component UI state touched by the send-failure handler. -/
structure ChatUIState where
  messages : List RMsg
  newMessage : String
deriving DecidableEq, Repr

/-- The catch block of `DirectChat.sendMessage`: re-populate the input with the
failed content and remove the optimistic (provisional) message from the view. -/
def sendMessageFailureHandler (tempId content : String) (st : ChatUIState) :
    ChatUIState :=
  { newMessage := content,
    messages := st.messages.filter (fun m => m.id != tempId) }

/-- Modelled from the spec: `messageCleanupService.isMessageExpired` lives in
`src/services/messageCleanup.ts`, which is not among the repository sources; the
spec's local sweep purges an entry whose `expiresAt` has passed. -/
def isMessageExpired (expiresAt now : Int) : Bool :=
  decide (expiresAt ≤ now)

/-- The DirectChat `syncInterval` body: fetch the direct-scope rows (`fetched`),
drop expired ones, and replace the whole local view with that list when it holds
at least one id missing locally; otherwise keep the previous view unchanged. -/
def periodicSync (fetched : List RMsg) (now : Int) (prev : List RMsg) : List RMsg :=
  let validMessages := fetched.filter (fun m => !isMessageExpired m.expires_at now)
  let newMessages := validMessages.filter (fun dbMsg => !prev.any (fun l => l.id == dbMsg.id))
  if newMessages.length > 0 then validMessages else prev

/-- Modelled from the spec, for comparison with the source's `toggle_message_pin`:
`SetPinned(messageId, pinned)` is privileged (PermissionError for non-operator
callers), NotFoundError when the id is absent, and otherwise stores and returns
the requested flag. -/
def SetPinned_specModel (db : DB) (p_message_id : Nat) (p_caller_id : Nat)
    (pinned : Bool) : Except String (DB × Bool) :=
  match lookupUserRole db p_caller_id with
  | some Role.operator =>
    match db.messages_v2.find? (fun x => x.id == p_message_id) with
    | none => Except.error "NotFoundError"
    | some _ =>
      Except.ok
        ({ db with
            messages_v2 := db.messages_v2.map (fun x =>
              if x.id == p_message_id then { x with is_pinned := pinned } else x) },
          pinned)
  | _ => Except.error "PermissionError"

/-! Concrete stores used by witnesses and counterexamples. -/

/-- Store with a configured global default of 48 hours and one inactive group. -/
def exDbC1 : DB :=
  { users_v2 := [],
    groups := [{ id := 7, message_deletion_timer := 7200, is_active := false }],
    messages_v2 := [],
    app_settings :=
      [{ setting_key := "default_message_retention_hours", setting_value := "48",
         updated_by := none, updated_at := 0 }],
    next_id := 0 }

/-- Store with one guest user, used for send examples. -/
def exDbSend : DB :=
  { users_v2 :=
      [{ id := 1, username := "alice", display_name := none, role := Role.guest,
         last_active := 0, is_online := false }],
    groups := [],
    messages_v2 := [],
    app_settings :=
      [{ setting_key := "default_message_retention_hours", setting_value := "24",
         updated_by := none, updated_at := 0 }],
    next_id := 0 }

/-- The row inserted by `send_message_v2_guest exDbSend 1000 1 "hi" "direct" none (some 2)`. -/
def exSentRow : MessageRow :=
  { id := 0, user_id := 1, username := "alice", display_name := none, content := "hi",
    message_type := "direct", group_id := none, user_role := Role.guest,
    created_at := 1000, expires_at := 8200, is_pinned := false }

/-- An expired unpinned row. -/
def exRowGone : MessageRow :=
  { id := 10, user_id := 1, username := "alice", display_name := none, content := "old",
    message_type := "direct", group_id := none, user_role := Role.guest,
    created_at := 0, expires_at := 50, is_pinned := false }

/-- An expired but pinned row (author an operator, per the pin CHECK constraint). -/
def exRowPinned : MessageRow :=
  { id := 11, user_id := 100, username := "opal", display_name := none, content := "keep",
    message_type := "direct", group_id := none, user_role := Role.operator,
    created_at := 0, expires_at := 10, is_pinned := true }

/-- A not-yet-expired unpinned row. -/
def exRowLive : MessageRow :=
  { id := 12, user_id := 1, username := "alice", display_name := none, content := "live",
    message_type := "direct", group_id := none, user_role := Role.guest,
    created_at := 60, expires_at := 200, is_pinned := false }

/-- Store holding an expired unpinned row, an expired pinned row and a live row. -/
def exDbSweep : DB :=
  { users_v2 := [],
    groups := [],
    messages_v2 := [exRowGone, exRowPinned, exRowLive],
    app_settings := [],
    next_id := 13 }

/-! Claim theorems. -/

/-- Claim C1, counterexample: with the global default setting configured to 48
hours, a group-scoped TTL resolution whose group id names a missing-or-inactive
group (id 7 is inactive in `exDbC1`) yields `now + 24` hours, while a
direct-scoped resolution yields `now + 48` hours, so the fallback is not the
configured global default the claim promises. -/
theorem C1_counterexample :
    findActiveGroup exDbC1 7 = none ∧
    (calculate_message_ttl exDbC1 0 "group" (some 7) none).toOption = some (24 * 3600) ∧
    (calculate_message_ttl exDbC1 0 "direct" none none).toOption = some (48 * 3600) ∧
    (24 * 3600 : Int) ≠ 48 * 3600 := by
  exact ⟨rfl, by decide, by decide, by decide⟩

/-- Claim C1, amended: a group-scoped TTL resolution without a per-send override
whose group id names no active group falls back to a hard-coded 24 hours
(`expiresAt = now + 24h`), which coincides with the configured global default
only when that setting is 24 (or itself missing). -/
theorem C1_amended (db : DB) (now : Int) (g : Nat)
    (hg : findActiveGroup db g = none) :
    calculate_message_ttl db now "group" (some g) none = Except.ok (now + 24 * 3600) := by
  simp [calculate_message_ttl, resolve_retention_hours, hg, Except.map]

/-- Claim C1 witness: the amended statement evaluated on `exDbC1`. -/
theorem C1_amended_witness :
    calculate_message_ttl exDbC1 0 "group" (some 7) none = Except.ok (0 + 24 * 3600) :=
  C1_amended exDbC1 0 7 rfl

/-- Claim C2, counterexample: a send with a custom retention override of 0 hours
succeeds and stores `expires_at = created_at`, so the stored `expiresAt` is not
strictly greater than `createdAt`. -/
theorem C2_counterexample :
    (sentMessage (send_message_v2_guest exDbSend 1000 1 "hi" "direct" none (some 0))).map
        (fun m => (m.created_at, m.expires_at)) = some (1000, 1000) ∧
    ¬ ((1000 : Int) < 1000) := by
  refine ⟨rfl, by decide⟩

/-- Claim C2, amended: for every message successfully stored by
`send_message_v2_guest`, `expiresAt = createdAt + r` hours where `r` is the
resolved retention; the stored `expiresAt` is strictly greater than the stored
`createdAt` whenever the resolved retention hours are positive (a zero or
negative custom override instead yields `expiresAt ≤ createdAt`). -/
theorem C2_amended (db : DB) (now : Int) (uid : Nat) (content ty : String)
    (gid : Option Nat) (custom : Option Int) (r : Int) (m : MessageRow)
    (hres : resolve_retention_hours db ty gid custom = Except.ok r)
    (hr : 0 < r)
    (hm : sentMessage (send_message_v2_guest db now uid content ty gid custom) = some m) :
    m.created_at < m.expires_at := by
  cases hfind : db.users_v2.find? (fun u => u.id == uid) with
  | none =>
    simp [sentMessage, send_message_v2_guest, hfind] at hm
  | some u =>
    simp only [sentMessage, send_message_v2_guest, hfind, calculate_message_ttl, hres,
      Except.map] at hm
    by_cases hc : messageRowCheck
        { id := db.next_id, user_id := uid, username := u.username,
          display_name := u.display_name, content := content, message_type := ty,
          group_id := gid, user_role := u.role, created_at := now,
          expires_at := now + r * 3600, is_pinned := false } && groupFkOk db gid
    · rw [if_pos hc] at hm
      simp only [List.getLast?_concat, Option.some.injEq] at hm
      subst hm
      simp only []
      omega
    · rw [if_neg hc] at hm
      exact absurd hm (by simp)

/-- Claim C2 witness: the amended statement evaluated on `exDbSend` with a
custom override of 2 hours. -/
theorem C2_amended_witness : exSentRow.created_at < exSentRow.expires_at :=
  C2_amended exDbSend 1000 1 "hi" "direct" none (some 2) 2 exSentRow rfl (by decide) rfl

/-- Claim C3: `cleanup_expired_messages` keeps exactly the rows that are not
(expired and unpinned), removes nothing else, returns the number of deleted
rows, and in particular never removes a pinned row however expired. -/
theorem C3_sweep_exact (db : DB) (now : Int) :
    (∀ m : MessageRow,
        m ∈ (cleanup_expired_messages db now).1.messages_v2 ↔
          m ∈ db.messages_v2 ∧ ¬(m.expires_at < now ∧ m.is_pinned = false)) ∧
    (cleanup_expired_messages db now).2 =
      (db.messages_v2.filter (expiredUnpinned now)).length ∧
    (∀ m : MessageRow, m ∈ db.messages_v2 → m.is_pinned = true →
        m ∈ (cleanup_expired_messages db now).1.messages_v2) := by
  have hexp : ∀ m : MessageRow, expiredUnpinned now m = true ↔
      m.expires_at < now ∧ m.is_pinned = false := by
    intro m
    simp [expiredUnpinned]
  have hmem : ∀ m : MessageRow,
      m ∈ (cleanup_expired_messages db now).1.messages_v2 ↔
        m ∈ db.messages_v2 ∧ ¬(m.expires_at < now ∧ m.is_pinned = false) := by
    intro m
    simp only [cleanup_expired_messages]
    rw [List.mem_filter]
    constructor
    · rintro ⟨h1, h2⟩
      refine ⟨h1, ?_⟩
      intro hcontra
      rw [(hexp m).mpr hcontra] at h2
      simp at h2
    · rintro ⟨h1, h2⟩
      refine ⟨h1, ?_⟩
      cases he : expiredUnpinned now m with
      | false => simp
      | true => exact absurd ((hexp m).mp he) h2
  refine ⟨hmem, rfl, ?_⟩
  intro m hm hp
  exact (hmem m).mpr ⟨hm, by simp [hp]⟩

/-- Claim C3 witness: on `exDbSweep` at time 100, the expired pinned row is kept. -/
theorem C3_sweep_exact_witness :
    exRowPinned ∈ (cleanup_expired_messages exDbSweep 100).1.messages_v2 :=
  (C3_sweep_exact exDbSweep 100).2.2 exRowPinned (by decide) rfl

/-- Helper for C4: a sweep at a time at which no remaining unpinned row is
expired deletes nothing and leaves the store unchanged. -/
theorem cleanup_noop (db : DB) (now : Int)
    (h : ∀ m : MessageRow, m ∈ db.messages_v2 → m.is_pinned = false →
        ¬ m.expires_at < now) :
    cleanup_expired_messages db now = (db, 0) := by
  have hnone : ∀ m ∈ db.messages_v2, expiredUnpinned now m = false := by
    intro m hm
    cases hp : m.is_pinned with
    | true => simp [expiredUnpinned, hp]
    | false =>
      have := h m hm hp
      simp [expiredUnpinned, hp, this]
  have h1 : db.messages_v2.filter (expiredUnpinned now) = [] :=
    List.filter_eq_nil_iff.mpr (by intro a ha; simp [hnone a ha])
  have h2 : db.messages_v2.filter (fun m => !expiredUnpinned now m) = db.messages_v2 :=
    List.filter_eq_self.mpr (by intro a ha; simp [hnone a ha])
  simp [cleanup_expired_messages, h1, h2]

/-- Claim C4: a second sweep run after a first one, with no intervening inserts
or unpins and the clock not advanced past any remaining message's expiry (no
remaining unpinned row has expired by the second run), deletes zero rows and
leaves the store unchanged. -/
theorem C4_sweep_idempotent (db : DB) (now now' : Int)
    (h : ∀ m : MessageRow, m ∈ (cleanup_expired_messages db now).1.messages_v2 →
        m.is_pinned = false → ¬ m.expires_at < now') :
    cleanup_expired_messages (cleanup_expired_messages db now).1 now' =
      ((cleanup_expired_messages db now).1, 0) :=
  cleanup_noop _ now' h

/-- Claim C4 witness: two consecutive sweeps of `exDbSweep` at time 100. -/
theorem C4_sweep_idempotent_witness :
    cleanup_expired_messages (cleanup_expired_messages exDbSweep 100).1 100 =
      ((cleanup_expired_messages exDbSweep 100).1, 0) :=
  C4_sweep_idempotent exDbSweep 100 100 (by decide)

/-- Helper: `findIdx?` misses exactly when `any` is false. -/
theorem findIdx?_none_iff_any_false {α : Type} (p : α → Bool) (l : List α) :
    l.findIdx? p = none ↔ l.any p = false := by
  rw [List.findIdx?_eq_none_iff]
  simp [List.any_eq_true]

/-- An entry of the local client view. -/
def exExisting : RMsg :=
  { id := "a", user_id := "u1", content := "old", created_at := 0, expires_at := 100 }

/-- An incoming authoritative copy carrying the same id as `exExisting` but
different content. -/
def exIncoming : RMsg :=
  { id := "a", user_id := "u1", content := "new", created_at := 0, expires_at := 100 }

/-- An incoming message with a fresh id, created before `exExisting`. -/
def exOther : RMsg :=
  { id := "b", user_id := "u2", content := "hello", created_at := -5, expires_at := 100 }

/-- Claim C5, counterexample: an incoming bus message whose id already exists in
the local view does not replace the existing entry - both `handleNewMessage` and
`RealtimeMessagingService.addMessage` return the previous view unchanged, keeping
the stale copy. -/
theorem C5_counterexample :
    handleNewMessage exIncoming [exExisting] = [exExisting] ∧
    addMessage [exExisting] exIncoming = [exExisting] ∧
    exIncoming.id = exExisting.id ∧
    exIncoming ≠ exExisting := by
  exact ⟨rfl, rfl, rfl, by decide⟩

/-- Claim C5, amended: when the incoming message's id already exists in the local
view the incoming copy is discarded and the view kept unchanged (dedup, not
replace); when the id is not present the message is inserted and the view
re-sorted ascending by `created_at`.  Both the group-chat `handleNewMessage`
and `RealtimeMessagingService.addMessage` behave this way. -/
theorem C5_amended (message : RMsg) (prev : List RMsg) :
    (prev.any (fun m => m.id == message.id) = true →
        handleNewMessage message prev = prev ∧ addMessage prev message = prev) ∧
    (prev.any (fun m => m.id == message.id) = false →
        handleNewMessage message prev = addMessage prev message ∧
        (handleNewMessage message prev).Perm (prev ++ [message]) ∧
        (handleNewMessage message prev).Sorted createdLe) := by
  constructor
  · intro h
    have hidx : (prev.findIdx? (fun m => m.id == message.id)).isSome = true := by
      rw [List.findIdx?_isSome, h]
    constructor
    · simp [handleNewMessage, h]
    · unfold addMessage
      cases hfound : prev.findIdx? (fun m => m.id == message.id) with
      | none => rw [hfound] at hidx; simp at hidx
      | some i => rfl
  · intro h
    have hidx : prev.findIdx? (fun m => m.id == message.id) = none :=
      (findIdx?_none_iff_any_false _ _).mpr h
    have hne : handleNewMessage message prev =
        List.insertionSort createdLe (prev ++ [message]) := by
      simp [handleNewMessage, h]
    refine ⟨?_, ?_, ?_⟩
    · rw [hne]; unfold addMessage; rw [hidx]
    · rw [hne]; exact List.perm_insertionSort createdLe (prev ++ [message])
    · rw [hne]; exact List.sorted_insertionSort createdLe (prev ++ [message])

/-- Claim C5 witness: inserting `exOther` (absent id, earlier `created_at`) into
the view `[exExisting]` agrees across both handlers, is a permutation of the
appended list, and leaves the view sorted ascending by `created_at`. -/
theorem C5_amended_witness :
    handleNewMessage exOther [exExisting] = addMessage [exExisting] exOther ∧
    (handleNewMessage exOther [exExisting]).Perm ([exExisting] ++ [exOther]) ∧
    (handleNewMessage exOther [exExisting]).Sorted createdLe :=
  (C5_amended exOther [exExisting]).2 rfl

/-- A DirectChat view holding a delivered message and an optimistic provisional
entry with a temp id. -/
def exUIState : ChatUIState :=
  { messages :=
      [{ id := "m1", user_id := "u2", content := "hey", created_at := 0, expires_at := 900 },
       { id := "temp-1", user_id := "u1", content := "draft", created_at := 5,
         expires_at := 900 }],
    newMessage := "" }

/-- Claim C8, counterexample: after a failed send the provisional entry
(id `temp-1`) is no longer present in the view at all - the catch block removes
it instead of keeping it visible marked as failed. -/
theorem C8_counterexample :
    exUIState.messages.any (fun m => m.id == "temp-1") = true ∧
    ((sendMessageFailureHandler "temp-1" "draft" exUIState).messages.any
        (fun m => m.id == "temp-1")) = false := by
  exact ⟨rfl, rfl⟩

/-- Claim C8, amended: when a send fails after the provisional entry was
rendered, the catch block removes that provisional entry from the local view
(keeping every other entry) and restores the composed content to the input box
as the retry affordance. -/
theorem C8_amended (tempId content : String) (st : ChatUIState) :
    (sendMessageFailureHandler tempId content st).newMessage = content ∧
    ((sendMessageFailureHandler tempId content st).messages.any
        (fun m => m.id == tempId)) = false ∧
    (∀ m : RMsg, m ∈ st.messages → m.id ≠ tempId →
        m ∈ (sendMessageFailureHandler tempId content st).messages) := by
  refine ⟨rfl, ?_, ?_⟩
  · simp only [sendMessageFailureHandler]
    rw [Bool.eq_false_iff]
    intro hany
    rw [List.any_eq_true] at hany
    obtain ⟨x, hx, hid⟩ := hany
    rw [List.mem_filter] at hx
    have h1 : (x.id != tempId) = true := hx.2
    rw [beq_iff_eq] at hid
    simp [hid] at h1
  · intro m hm hne
    simp only [sendMessageFailureHandler]
    rw [List.mem_filter]
    exact ⟨hm, by simp [hne]⟩

/-- Claim C8 witness: the amended statement evaluated on `exUIState`: the
delivered message `m1` survives the failure cleanup. -/
theorem C8_amended_witness :
    ({ id := "m1", user_id := "u2", content := "hey", created_at := 0,
       expires_at := 900 } : RMsg) ∈
      (sendMessageFailureHandler "temp-1" "draft" exUIState).messages :=
  (C8_amended "temp-1" "draft" exUIState).2.2 _ (by decide) (by decide)

/-- A message present on the server and locally. -/
def exServerMsg : RMsg :=
  { id := "s1", user_id := "u2", content := "kept", created_at := 0, expires_at := 900 }

/-- A message still held locally but no longer present server-side. -/
def exLocalOnly : RMsg :=
  { id := "l1", user_id := "u1", content := "stale", created_at := 1, expires_at := 900 }

/-- Claim C9, counterexample: when the authoritative fetch holds no id missing
locally, the sync step returns the previous view unchanged, so a locally-held
entry deleted server-side (`l1`) survives the resync and the local id set does
not equal the server's. -/
theorem C9_counterexample :
    periodicSync [exServerMsg] 0 [exServerMsg, exLocalOnly] =
      [exServerMsg, exLocalOnly] ∧
    exLocalOnly.id ∉ ([exServerMsg].map (fun m => m.id)) := by
  exact ⟨rfl, by decide⟩

/-- Claim C9, amended: the periodic resync replaces the whole local view with
the fetched, not-yet-expired authoritative list exactly when that list holds at
least one id missing locally (dropping local-only entries, provisionals
included, only in that case); when every fetched entry is already present
locally it leaves the view unchanged, so entries deleted server-side are not
removed by the resync alone. -/
theorem C9_amended (fetched prev : List RMsg) (now : Int) :
    ((fetched.filter (fun m => !isMessageExpired m.expires_at now)).any
        (fun d => !prev.any (fun l => l.id == d.id)) = true →
      periodicSync fetched now prev =
        fetched.filter (fun m => !isMessageExpired m.expires_at now)) ∧
    ((fetched.filter (fun m => !isMessageExpired m.expires_at now)).any
        (fun d => !prev.any (fun l => l.id == d.id)) = false →
      periodicSync fetched now prev = prev) := by
  have hlen : ∀ (l : List RMsg) (p : RMsg → Bool),
      (0 < (l.filter p).length ↔ l.any p = true) := by
    intro l p
    constructor
    · intro h
      obtain ⟨a, ha⟩ := List.exists_mem_of_ne_nil _ (List.length_pos.mp h)
      rw [List.mem_filter] at ha
      exact List.any_eq_true.mpr ⟨a, ha.1, ha.2⟩
    · intro h
      obtain ⟨a, ha, hpa⟩ := List.any_eq_true.mp h
      have hmem : a ∈ l.filter p := List.mem_filter.mpr ⟨ha, hpa⟩
      cases hfp : l.filter p with
      | nil => rw [hfp] at hmem; simp at hmem
      | cons b t => simp
  constructor
  · intro h
    have : 0 < ((fetched.filter (fun m => !isMessageExpired m.expires_at now)).filter
        (fun d => !prev.any (fun l => l.id == d.id))).length :=
      (hlen _ _).mpr h
    simp only [periodicSync]
    rw [if_pos this]
  · intro h
    have : ¬ 0 < ((fetched.filter (fun m => !isMessageExpired m.expires_at now)).filter
        (fun d => !prev.any (fun l => l.id == d.id))).length := by
      rw [hlen]
      simp [h]
    simp only [periodicSync]
    rw [if_neg this]

/-- Claim C9 witness: a fetch holding a locally-missing id replaces the view. -/
theorem C9_amended_witness :
    periodicSync [exServerMsg] 0 [] = [exServerMsg] := by
  have h := (C9_amended [exServerMsg] [] 0).1 (by decide)
  rw [h]
  decide

/-- An already-pinned message authored by an operator. -/
def exPinnedMsg : MessageRow :=
  { id := 1, user_id := 100, username := "opal", display_name := none, content := "notice",
    message_type := "direct", group_id := none, user_role := Role.operator,
    created_at := 0, expires_at := 50, is_pinned := true }

/-- Store with one operator user (id 100) and the pinned message `exPinnedMsg`. -/
def exDbPin : DB :=
  { users_v2 :=
      [{ id := 100, username := "opal", display_name := none, role := Role.operator,
         last_active := 0, is_online := true }],
    groups := [],
    messages_v2 := [exPinnedMsg],
    app_settings := [],
    next_id := 2 }

/-- Projection: the boolean returned by a pin call. -/
def pinReturn (r : Except String (DB × Bool)) : Option Bool :=
  r.toOption.map (fun p => p.2)

/-- Projection: the stored pin flags after a pin call. -/
def pinFlags (r : Except String (DB × Bool)) : Option (List Bool) :=
  r.toOption.map (fun p => p.1.messages_v2.map (fun x => x.is_pinned))

/-- Claim C6, counterexample: requesting `SetPinned(1, true)` on the
already-pinned message 1 must (per the claim) leave the flag true and return
true - as the spec-modelled `SetPinned_specModel` does - but the source's only
pin operation, `toggle_message_pin`, ignores the requested value: it unpins the
message and returns false. -/
theorem C6_counterexample :
    pinReturn (SetPinned_specModel exDbPin 1 100 true) = some true ∧
    pinFlags (SetPinned_specModel exDbPin 1 100 true) = some [true] ∧
    pinReturn (toggle_message_pin exDbPin 1 100) = some false ∧
    pinFlags (toggle_message_pin exDbPin 1 100) = some [false] := by
  exact ⟨rfl, rfl, rfl, rfl⟩

/-- Claim C6, amended: a successful pin call by an existing operator on an
existing message (whose flipped row passes the table's CHECK constraints)
flips the stored pinned flag and returns the flipped value - the operation is a
toggle that takes no requested value. -/
theorem C6_amended (db : DB) (mid oid : Nat) (m : MessageRow)
    (hop : lookupUserRole db oid = some Role.operator)
    (hm : db.messages_v2.find? (fun x => x.id == mid) = some m)
    (hchk : messageRowCheck { m with is_pinned := !m.is_pinned } = true) :
    ∃ db', toggle_message_pin db mid oid = Except.ok (db', !m.is_pinned) ∧
      (∃ x, x ∈ db'.messages_v2 ∧ x.id = mid ∧ x.is_pinned = !m.is_pinned) ∧
      (∀ x : MessageRow, x ∈ db.messages_v2 → x.id ≠ mid → x ∈ db'.messages_v2) := by
  have hmid : (m.id == mid) = true := by simpa using List.find?_some hm
  have hmideq : m.id = mid := beq_iff_eq.mp hmid
  simp only [toggle_message_pin, hop, hm, sqlNeqRole]
  rw [if_neg (by simp)]
  rw [if_pos hchk]
  refine ⟨_, rfl, ?_, ?_⟩
  · refine ⟨{ m with is_pinned := !m.is_pinned }, ?_, ?_, rfl⟩
    · have hmm : m ∈ db.messages_v2 := List.mem_of_find?_eq_some hm
      have himg := List.mem_map_of_mem (fun x : MessageRow =>
        if x.id == mid then { x with is_pinned := !m.is_pinned } else x) hmm
      simpa [hmid] using himg
    · exact hmideq
  · intro x hx hne
    have hbeq : (x.id == mid) = false := by simp [hne]
    have himg := List.mem_map_of_mem (fun y : MessageRow =>
      if y.id == mid then { y with is_pinned := !m.is_pinned } else y) hx
    simpa [hbeq] using himg

/-- Claim C6 witness: the amended statement evaluated on `exDbPin`: the toggle
unpins the pinned message 1 and returns false. -/
theorem C6_amended_witness :
    ∃ db', toggle_message_pin exDbPin 1 100 = Except.ok (db', !exPinnedMsg.is_pinned) ∧
      (∃ x, x ∈ db'.messages_v2 ∧ x.id = 1 ∧ x.is_pinned = !exPinnedMsg.is_pinned) ∧
      (∀ x : MessageRow, x ∈ exDbPin.messages_v2 → x.id ≠ 1 → x ∈ db'.messages_v2) :=
  C6_amended exDbPin 1 100 exPinnedMsg rfl rfl (by decide)

/-- Claim C7: the code contradicts its own `Operator only` documentation - a
caller id absent from `users_v2` (id 999, certainly not an operator) is not
rejected by the permission check, because `operator_role != 'operator'`
evaluates to NULL for the NULL role and the plpgsql IF does not fire; the call
proceeds and successfully unpins message 1.  The claim (permission error for
every non-operator caller) is right about intent; the code is wrong. -/
theorem C7_permission_bypass :
    lookupUserRole exDbPin 999 = none ∧
    toggle_message_pin exDbPin 1 999 =
      Except.ok
        ({ exDbPin with messages_v2 := [{ exPinnedMsg with is_pinned := false }] },
          false) := by
  exact ⟨rfl, rfl⟩

/-- Store with two settings rows, used for the retention-update frame claim. -/
def exDbSettings : DB :=
  { users_v2 := [],
    groups := [],
    messages_v2 := [exRowLive],
    app_settings :=
      [{ setting_key := "default_message_retention_hours", setting_value := "24",
         updated_by := none, updated_at := 0 },
       { setting_key := "guest_session_hours", setting_value := "24",
         updated_by := none, updated_at := 0 }],
    next_id := 0 }

/-- Claim C10: updating the default retention setting leaves every stored
message (in particular every `expires_at`), every user, every group and the id
source unchanged, and keeps every `app_settings` row whose key is not
`default_message_retention_hours`. -/
theorem C10_retention_update_frame (db : DB) (hours : Int) (uid : Nat) (now : Int) :
    (updateMessageRetentionHours db hours uid now).messages_v2 = db.messages_v2 ∧
    (updateMessageRetentionHours db hours uid now).users_v2 = db.users_v2 ∧
    (updateMessageRetentionHours db hours uid now).groups = db.groups ∧
    (updateMessageRetentionHours db hours uid now).next_id = db.next_id ∧
    (∀ r : SettingRow, r ∈ db.app_settings →
        r.setting_key ≠ "default_message_retention_hours" →
        r ∈ (updateMessageRetentionHours db hours uid now).app_settings) := by
  refine ⟨rfl, rfl, rfl, rfl, ?_⟩
  intro r hr hne
  have hbeq : (r.setting_key == "default_message_retention_hours") = false := by simp [hne]
  have himg := List.mem_map_of_mem (fun r0 : SettingRow =>
    if r0.setting_key == "default_message_retention_hours" then
      { r0 with setting_value := toString hours, updated_by := some uid, updated_at := now }
    else r0) hr
  simpa [updateMessageRetentionHours, hbeq] using himg

/-- Claim C10 witness: the unrelated `guest_session_hours` row survives a
retention update on `exDbSettings`. -/
theorem C10_retention_update_frame_witness :
    ({ setting_key := "guest_session_hours", setting_value := "24",
       updated_by := none, updated_at := 0 } : SettingRow) ∈
      (updateMessageRetentionHours exDbSettings 48 5 7).app_settings :=
  (C10_retention_update_frame exDbSettings 48 5 7).2.2.2.2 _ (by decide) (by decide)
